import Mathlib

/-!
Verification of the weeks-of-life calculator (`script.js`).

The client-side calculator is embedded shallowly:

* A JavaScript `Date` is represented by its UTC timestamp in milliseconds,
  an integer (`ℤ`).  All date arithmetic in the source happens on these
  timestamps (`end - start`, comparison of dates), so this is faithful.
* Every division the source performs on timestamps or week counts is
  immediately passed to `Math.floor` or `Math.ceil`; on integer data
  `Math.floor(a / b)` is floor division (`Int.fdiv a b`) and
  `Math.ceil(a / b)` is `ceilDiv a b` below.  The doubles involved are far
  below 2^53, where this is exact.
* Genuinely fractional JavaScript numbers (the sleep-hours figure, the
  container width and gap in pixels) are modelled as exact rationals (`ℚ`);
  double rounding error is not modelled.
* A missing (`undefined`) or non-finite (`NaN`, `±Infinity`) sleep-hours
  argument is modelled as `none : Option ℚ`; `Number.isFinite` is exactly
  the `some` test.
* `throw new Error msg` becomes `Except.error msg`.
* For `parseDateInput`, the result of the ECMAScript `Number` coercion is
  an exact fraction (`JNum`); `NaN` and `±Infinity` are both modelled as
  `none` (`±Infinity` fed to `Date.UTC` yields an invalid date exactly as
  `NaN` does, so the two are observationally equal here).
-/

namespace WeeksLife

/-- `Math.ceil(a / b)` on integers: ceiling division via floor division. -/
def ceilDiv (a b : ℤ) : ℤ := -(Int.fdiv (-a) b)

/-- `const DAY_MS = 86_400_000` (script.js line 14). -/
def DAY_MS : ℤ := 86400000

/-- `const DEFAULT_SLEEP_HOURS = 8` (script.js line 15). -/
def DEFAULT_SLEEP_HOURS : ℚ := 8

/-- `const HOURS_PER_DAY = 24` (script.js line 16). -/
def HOURS_PER_DAY : ℚ := 24

/-- `const MIN_CELL_SIZE = 4` (script.js line 17). -/
def MIN_CELL_SIZE : ℤ := 4

/-- `const MAX_CELL_SIZE = 12` (script.js line 18). -/
def MAX_CELL_SIZE : ℤ := 12

/-- `stripTime` (script.js line 37): rebuilding a date from its UTC
year/month/day components floors the timestamp to the start of its UTC day. -/
def stripTime (t : ℤ) : ℤ := Int.fdiv t DAY_MS * DAY_MS

/-- `clamp(value, min, max)` (script.js line 39):
`Math.min(max, Math.max(min, value))`.  The source binders `min`/`max` are
renamed `lo`/`hi` to avoid clashing with the order operations. -/
def clamp (value lo hi : ℚ) : ℚ := min hi (max lo value)

/-- `completedWeeks(start, end)` (script.js lines 49-53).  The source binder
`end` is a Lean keyword and is renamed `stop`. -/
def completedWeeks (start stop : ℤ) : ℤ :=
  let days : ℤ := Int.fdiv (stop - start) DAY_MS
  if days ≤ 0 then 0 else Int.fdiv days 7

/-- `totalWeeksSpan(start, end)` (script.js lines 55-58). -/
def totalWeeksSpan (start stop : ℤ) : ℤ :=
  let days : ℤ := max 0 (ceilDiv (stop - start) DAY_MS)
  max 1 (ceilDiv days 7)

/-- JS `Math.round` on an exact rational: round half toward `+∞`. -/
def jsRound (q : ℚ) : ℤ := ⌊q + 1/2⌋

/-- The record literal returned by `computeTimeline` (script.js lines
117-128). -/
structure TimelineStats where
  total : ℤ
  lived : ℤ
  remaining : ℤ
  currentIndex : ℤ
  remainingDays : ℤ
  sleepDays : ℤ
  sleepWeeks : ℤ
  sleepHours : ℚ
  sleepStartIndex : ℤ
  sleepEndIndex : ℤ
deriving DecidableEq

/-- Body of `computeTimeline` after the invalid-span guard (script.js lines
104-128), on the already-stripped dates `start`, `finish`, `now`. -/
def timelineStats (start finish now : ℤ) (sleepHours : Option ℚ) :
    TimelineStats :=
  let safeSleepHours : ℚ :=
    match sleepHours with
    | some h => clamp h 0 HOURS_PER_DAY
    | none => DEFAULT_SLEEP_HOURS
  let total := totalWeeksSpan start finish
  let lived := min (total - 1) (max 0 (completedWeeks start now))
  let currentIndex := min (total - 1) lived
  let remaining := max 0 (total - lived - 1)
  let remainingDays := max 0 (ceilDiv (finish - now) DAY_MS)
  let sleepDays := max 0 (jsRound ((remainingDays : ℚ) * (safeSleepHours / HOURS_PER_DAY)))
  let sleepWeeks := min remaining (jsRound ((sleepDays : ℚ) / 7))
  let sleepStartIndex := currentIndex + 1
  let sleepEndIndex := min total (sleepStartIndex + sleepWeeks)
  { total := total
    lived := lived
    remaining := remaining
    currentIndex := currentIndex
    remainingDays := remainingDays
    sleepDays := sleepDays
    sleepWeeks := sleepWeeks
    sleepHours := safeSleepHours
    sleepStartIndex := sleepStartIndex
    sleepEndIndex := sleepEndIndex }

/-- `computeTimeline(birthDate, endDate, sleepHours, today)` (script.js
lines 95-129).  `throw new Error(...)` is modelled as `Except.error`
carrying the message. -/
def computeTimeline (birthDate endDate : ℤ) (sleepHours : Option ℚ)
    (today : ℤ) : Except String TimelineStats :=
  let start := stripTime birthDate
  let finish := stripTime endDate
  let now := stripTime today
  if finish ≤ start then
    Except.error "End date must be after birth date."
  else
    Except.ok (timelineStats start finish now sleepHours)

/-- The record literal returned by `chooseGrid` (script.js line 82). -/
structure GridLayout where
  cols : ℤ
  rows : ℤ
  cellSize : ℤ
deriving DecidableEq

/-- `chooseGrid(total, containerWidth, gap)` (script.js lines 62-83).
`Math.floor(Math.sqrt(total))` on a positive integer is the integer square
root `Int.sqrt`. -/
def chooseGrid (total : ℤ) (containerWidth gap : ℚ) : GridLayout :=
  if total ≤ 0 then { cols := 1, rows := 1, cellSize := MAX_CELL_SIZE }
  else
    let ideal : ℤ := max 1 (Int.sqrt total)
    let cols0 : ℤ := max 1 (ideal + Int.fdiv ideal 6)
    let cols1 : ℤ :=
      if 0 < containerWidth then
        min cols0 (max 1 ⌊(containerWidth + gap) / ((MIN_CELL_SIZE : ℚ) + gap)⌋)
      else cols0
    let cols : ℤ := max 1 (min total cols1)
    let rows : ℤ := ceilDiv total cols
    let cellSize : ℤ :=
      if 0 < containerWidth then
        max MIN_CELL_SIZE (min MAX_CELL_SIZE
          ⌊(containerWidth - gap * ((cols : ℚ) - 1)) / (cols : ℚ)⌋)
      else MAX_CELL_SIZE
    { cols := cols, rows := rows, cellSize := cellSize }

/-! ### Date parsing (`parseDateInput`, script.js lines 22-28)

`parseDateInput` splits on `'-'`, coerces the first three pieces with the
ECMAScript `Number` function, and hands them to `Date.UTC`.  The `Number`
coercion of a string is modelled exactly (as a fraction of integers) for
decimal, hex, octal and binary string numeric literals. -/

/-- An exact, not necessarily reduced fraction `num / den` (`den > 0` for
every fraction built here): the value of a finite JS number. -/
structure JNum where
  num : ℤ
  den : ℕ
deriving DecidableEq

/-- `x - 1` on an exact fraction (the `m - 1` in `Date.UTC(y, m - 1, d)`). -/
def JNum.subOne (q : JNum) : JNum := { num := q.num - q.den, den := q.den }

/-- ECMAScript ToIntegerOrInfinity on a finite value: truncation toward 0. -/
def JNum.trunc (q : JNum) : ℤ :=
  if q.num < 0 then -(Int.fdiv (-q.num) q.den) else Int.fdiv q.num q.den

/-- The ASCII whitespace and line terminators stripped by the `Number`
coercion (Unicode space classes are not modelled). -/
def jsWhitespaceChar (c : Char) : Bool :=
  c = ' ' || c = '\t' || c = '\n' || c = '\r' || c = '\x0b' || c = '\x0c'

/-- Strip leading and trailing whitespace. -/
def trimJs (l : List Char) : List Char :=
  ((l.dropWhile jsWhitespaceChar).reverse.dropWhile jsWhitespaceChar).reverse

/-- Numeric value of a list of digits in the given base. -/
def digitsVal (base : ℕ) (val : Char → ℕ) (l : List Char) : ℕ :=
  l.foldl (fun acc c => base * acc + val c) 0

def decDigit (c : Char) : Bool := c.isDigit

def decVal (c : Char) : ℕ := c.toNat - 48

def hexDigit (c : Char) : Bool :=
  c.isDigit || ('a' ≤ c && c ≤ 'f') || ('A' ≤ c && c ≤ 'F')

def hexVal (c : Char) : ℕ :=
  if c.isDigit then c.toNat - 48
  else if 'a' ≤ c && c ≤ 'f' then c.toNat - 87
  else c.toNat - 55

def octDigit (c : Char) : Bool := '0' ≤ c && c ≤ '7'

def binDigit (c : Char) : Bool := c = '0' || c = '1'

/-- A whole-string radix literal (after `0x` / `0o` / `0b`): `NaN` if empty
or if a non-digit remains. -/
def parseRadix (base : ℕ) (isD : Char → Bool) (val : Char → ℕ)
    (l : List Char) : Option JNum :=
  let ds := l.takeWhile isD
  let rest := l.dropWhile isD
  if ds.isEmpty || !rest.isEmpty then none
  else some { num := (digitsVal base val ds : ℕ), den := 1 }

/-- An unsigned decimal mantissa (`123`, `123.45`, `123.`, `.45`), returning
its exact value and the unconsumed suffix. -/
def parseUnsignedDec (l : List Char) : Option (JNum × List Char) :=
  let intPart := l.takeWhile decDigit
  let rest := l.dropWhile decDigit
  match rest with
  | '.' :: r =>
    let fracPart := r.takeWhile decDigit
    let rest2 := r.dropWhile decDigit
    if intPart.isEmpty && fracPart.isEmpty then none
    else
      some ({ num := (digitsVal 10 decVal intPart * 10 ^ fracPart.length
                      + digitsVal 10 decVal fracPart : ℕ),
              den := 10 ^ fracPart.length }, rest2)
  | _ =>
    if intPart.isEmpty then none
    else some ({ num := (digitsVal 10 decVal intPart : ℕ), den := 1 }, rest)

/-- An optional exponent part closing a decimal literal: anything else
trailing makes the whole literal `NaN`. -/
def applyExp (q : JNum) (l : List Char) : Option JNum :=
  match l with
  | [] => some q
  | c :: r =>
    if c = 'e' || c = 'E' then
      let signAndRest : Bool × List Char :=
        match r with
        | '+' :: r2 => (true, r2)
        | '-' :: r2 => (false, r2)
        | _ => (true, r)
      let ds := signAndRest.2.takeWhile decDigit
      let rest := signAndRest.2.dropWhile decDigit
      if ds.isEmpty || !rest.isEmpty then none
      else
        let e := digitsVal 10 decVal ds
        if signAndRest.1 then some { num := q.num * 10 ^ e, den := q.den }
        else some { num := q.num, den := q.den * 10 ^ e }
    else none

/-- The ECMAScript `Number` coercion of a string, exactly, with `NaN` and
`±Infinity` both collapsed to `none` (non-finite). -/
def jsNumber (s : String) : Option JNum :=
  let l := trimJs s.data
  match l with
  | [] => some { num := 0, den := 1 }
  | '0' :: 'x' :: r => parseRadix 16 hexDigit hexVal r
  | '0' :: 'X' :: r => parseRadix 16 hexDigit hexVal r
  | '0' :: 'o' :: r => parseRadix 8 octDigit decVal r
  | '0' :: 'O' :: r => parseRadix 8 octDigit decVal r
  | '0' :: 'b' :: r => parseRadix 2 binDigit decVal r
  | '0' :: 'B' :: r => parseRadix 2 binDigit decVal r
  | _ =>
    let signAndRest : Bool × List Char :=
      match l with
      | '+' :: r => (true, r)
      | '-' :: r => (false, r)
      | _ => (true, l)
    if signAndRest.2 = ['I', 'n', 'f', 'i', 'n', 'i', 't', 'y'] then none
    else
      match parseUnsignedDec signAndRest.2 with
      | none => none
      | some (q, rest) =>
        match applyExp q rest with
        | none => none
        | some q2 =>
          some { num := (if signAndRest.1 then q2.num else -q2.num), den := q2.den }

/-- `String.prototype.split` with a one-character separator, on the
character list. -/
def jsSplit (sep : Char) : List Char → List (List Char)
  | [] => [[]]
  | c :: r =>
    if c = sep then [] :: jsSplit sep r
    else
      match jsSplit sep r with
      | [] => [[c]]
      | h :: t => (c :: h) :: t

/-- Day number of the proleptic Gregorian date `y-m-d` relative to
1970-01-01 (the ECMAScript day-number arithmetic underlying `Date.UTC`). -/
def daysFromCivil (y m d : ℤ) : ℤ :=
  let y1 := if m ≤ 2 then y - 1 else y
  let era := Int.fdiv y1 400
  let yoe := y1 - era * 400
  let mp := Int.emod (m + 9) 12
  let doy := Int.fdiv (153 * mp + 2) 5 + d - 1
  let doe := yoe * 365 + Int.fdiv yoe 4 - Int.fdiv yoe 100 + doy
  era * 146097 + doe - 719468

/-- `Date.UTC(y, m, d)` for finite arguments: truncate the components,
apply the two-digit-year rule, normalize month overflow, and clip the time
value to `±8.64e15` ms (`NaN`, i.e. `none`, outside that range). -/
def dateUTC (y m d : JNum) : Option ℤ :=
  let yi := y.trunc
  let mi := m.trunc
  let di := d.trunc
  let yr := if 0 ≤ yi ∧ yi ≤ 99 then 1900 + yi else yi
  let ym := yr + Int.fdiv mi 12
  let mn := Int.emod mi 12
  let t := daysFromCivil ym (mn + 1) di * DAY_MS
  if t.natAbs ≤ 8640000000000000 then some t else none

/-- `parseDateInput(value)` (script.js lines 22-28).  The destructuring
`[y, m, d] = value.split('-').map(Number)` makes a missing component
`undefined`, whose `Number` coercion is `NaN` (`none`); extra components
are silently dropped. -/
def parseDateInput (value : String) : Option ℤ :=
  if value = "" then none
  else
    let parts := jsSplit '-' value.data
    match (parts.get? 0).bind (fun p => jsNumber (String.mk p)),
        (parts.get? 1).bind (fun p => jsNumber (String.mk p)),
        (parts.get? 2).bind (fun p => jsNumber (String.mk p)) with
    | some y, some m, some d => dateUTC y m.subOne d
    | _, _, _ => none

/-- UTC-midnight timestamp of a calendar date, for concrete scenarios. -/
def utcMs (y m d : ℤ) : ℤ := daysFromCivil y m d * DAY_MS

/-! ### Arithmetic support lemmas -/

lemma DAY_MS_pos : (0 : ℤ) < DAY_MS := by decide

lemma ceilDiv_ediv (a : ℤ) {b : ℤ} (hb : 0 ≤ b) : ceilDiv a b = -(-a / b) := by
  unfold ceilDiv
  rw [Int.fdiv_eq_ediv _ hb]

lemma ceilDiv_mul_right (k : ℤ) {b : ℤ} (hb : b ≠ 0) : ceilDiv (k * b) b = k := by
  unfold ceilDiv
  rw [show -(k * b) = -k * b by ring, Int.mul_fdiv_cancel _ hb, neg_neg]

lemma one_le_ceilDiv {a b : ℤ} (ha : 1 ≤ a) (hb : 0 < b) : 1 ≤ ceilDiv a b := by
  rw [ceilDiv_ediv _ hb.le]
  have h := Int.ediv_neg' (show -a < 0 by omega) hb
  omega

lemma le_mul_ceilDiv (a : ℤ) {b : ℤ} (hb : 0 < b) : a ≤ b * ceilDiv a b := by
  rw [ceilDiv_ediv _ hb.le]
  have h := Int.ediv_mul_le (-a) hb.ne'
  have h2 : b * -(-a / b) = -(-a / b * b) := by ring
  linarith

lemma stripTime_mul_self (t : ℤ) : stripTime t = Int.fdiv t DAY_MS * DAY_MS := rfl

lemma stripTime_add_day (t : ℤ) :
    stripTime (t + DAY_MS) = stripTime t + DAY_MS := by
  unfold stripTime
  rw [Int.fdiv_eq_ediv _ DAY_MS_pos.le, Int.fdiv_eq_ediv _ DAY_MS_pos.le,
    show t + DAY_MS = t + 1 * DAY_MS by ring,
    Int.add_mul_ediv_right _ _ (by decide : DAY_MS ≠ (0 : ℤ))]
  ring

lemma totalWeeksSpan_mul (kb ke : ℤ) :
    totalWeeksSpan (kb * DAY_MS) (ke * DAY_MS) =
      max 1 (ceilDiv (max 0 (ke - kb)) 7) := by
  simp only [totalWeeksSpan]
  rw [show ke * DAY_MS - kb * DAY_MS = (ke - kb) * DAY_MS by ring,
    ceilDiv_mul_right _ (by decide : DAY_MS ≠ (0 : ℤ))]

lemma completedWeeks_mul (kb kn : ℤ) :
    completedWeeks (kb * DAY_MS) (kn * DAY_MS) =
      if kn - kb ≤ 0 then 0 else (kn - kb) / 7 := by
  simp only [completedWeeks]
  rw [show kn * DAY_MS - kb * DAY_MS = (kn - kb) * DAY_MS by ring,
    Int.mul_fdiv_cancel _ (by decide : DAY_MS ≠ (0 : ℤ)),
    Int.fdiv_eq_ediv _ (by decide : (0 : ℤ) ≤ 7)]

lemma computeTimeline_ok_eq (b e : ℤ) (sh : Option ℚ) (t : ℤ)
    (h : stripTime b < stripTime e) :
    computeTimeline b e sh t =
      Except.ok (timelineStats (stripTime b) (stripTime e) (stripTime t) sh) := by
  unfold computeTimeline
  rw [if_neg (not_le.2 h)]

lemma computeTimeline_error_eq (b e : ℤ) (sh : Option ℚ) (t : ℤ)
    (h : stripTime e ≤ stripTime b) :
    computeTimeline b e sh t =
      Except.error "End date must be after birth date." := by
  unfold computeTimeline
  rw [if_pos h]

/-- Every stripped date is a whole multiple of a day. -/
lemma stripTime_exists_mul (t : ℤ) : ∃ k, stripTime t = k * DAY_MS :=
  ⟨Int.fdiv t DAY_MS, rfl⟩

/-! ### Claims -/

/-- C1: `computeTimeline` fails with the invalid-span error exactly when the
end date is not strictly after the birth date once all three dates are
normalized to whole calendar days; otherwise it returns stats without
raising. -/
theorem computeTimeline_error_iff_invalid_span (b e : ℤ) (sh : Option ℚ) (t : ℤ) :
    (stripTime e ≤ stripTime b →
      computeTimeline b e sh t = Except.error "End date must be after birth date.") ∧
    (stripTime b < stripTime e →
      ∃ s, computeTimeline b e sh t = Except.ok s) :=
  ⟨fun h => computeTimeline_error_eq b e sh t h,
   fun h => ⟨_, computeTimeline_ok_eq b e sh t h⟩⟩

theorem computeTimeline_error_iff_invalid_span_witness :
    computeTimeline (utcMs 2020 1 10) (utcMs 2020 1 1) none 0 =
      Except.error "End date must be after birth date." :=
  (computeTimeline_error_iff_invalid_span (utcMs 2020 1 10) (utcMs 2020 1 1) none 0).1
    (by decide)

/-- C2: for every valid span the reported `total` is
`max 1 (ceil(daysBetween(start, end) / 7))`, hence at least `1`; and the
1-day span 2020-01-01 → 2020-01-03 is accepted with `total = 1`.
(`daysBetween` of the two stripped dates is their exact timestamp
difference divided by `DAY_MS`.) -/
theorem computeTimeline_totalWeeks (b e : ℤ) (sh : Option ℚ) (t : ℤ) :
    (stripTime b < stripTime e →
      ∃ s, computeTimeline b e sh t = Except.ok s ∧
        s.total = max 1 (ceilDiv ((stripTime e - stripTime b) / DAY_MS) 7) ∧
        1 ≤ s.total) ∧
    (∃ s, computeTimeline (utcMs 2020 1 1) (utcMs 2020 1 3) sh t = Except.ok s ∧
      s.total = 1) := by
  constructor
  · intro h
    obtain ⟨kb, hb⟩ := stripTime_exists_mul b
    obtain ⟨ke, he⟩ := stripTime_exists_mul e
    obtain ⟨kn, hn⟩ := stripTime_exists_mul t
    refine ⟨_, computeTimeline_ok_eq b e sh t h, ?_, ?_⟩
    · rw [hb, he] at h
      rw [hb, he, hn]
      have hke : kb < ke := lt_of_mul_lt_mul_right h DAY_MS_pos.le
      simp only [timelineStats, totalWeeksSpan_mul]
      rw [show ke * DAY_MS - kb * DAY_MS = (ke - kb) * DAY_MS by ring,
        Int.mul_ediv_cancel _ (by decide : DAY_MS ≠ (0 : ℤ))]
      have : max 0 (ke - kb) = ke - kb := max_eq_right (by omega)
      rw [this]
    · rw [hb, he] at h
      rw [hb, he, hn]
      have hke : kb < ke := lt_of_mul_lt_mul_right h DAY_MS_pos.le
      simp only [timelineStats, totalWeeksSpan_mul]
      exact le_max_left _ _
  · have hord : stripTime (utcMs 2020 1 1) < stripTime (utcMs 2020 1 3) := by decide
    refine ⟨_, computeTimeline_ok_eq _ _ sh t hord, ?_⟩
    have h1 : stripTime (utcMs 2020 1 1) = 18262 * DAY_MS := by decide
    have h3 : stripTime (utcMs 2020 1 3) = 18264 * DAY_MS := by decide
    rw [h1, h3]
    obtain ⟨kn, hn⟩ := stripTime_exists_mul t
    rw [hn]
    simp only [timelineStats, totalWeeksSpan_mul]
    decide

theorem computeTimeline_totalWeeks_witness :
    ∃ s, computeTimeline (utcMs 2020 1 1) (utcMs 2020 1 3) none 0 = Except.ok s ∧
      s.total = max 1 (ceilDiv ((stripTime (utcMs 2020 1 3) - stripTime (utcMs 2020 1 1)) / DAY_MS) 7) ∧
      1 ≤ s.total :=
  (computeTimeline_totalWeeks (utcMs 2020 1 1) (utcMs 2020 1 3) none 0).1 (by decide)

/-- C10: for every valid input the returned `currentIndex` equals `lived`:
the extra clamp `min (total - 1)` never changes the value because `lived`
is already clamped into `[0, total - 1]`; this holds for every `today`,
also before birth or beyond the end date. -/
theorem computeTimeline_currentIndex_eq_lived (b e : ℤ) (sh : Option ℚ) (t : ℤ)
    (h : stripTime b < stripTime e) :
    ∃ s, computeTimeline b e sh t = Except.ok s ∧
      s.currentIndex = s.lived ∧ 0 ≤ s.lived ∧ s.lived ≤ s.total - 1 := by
  obtain ⟨kb, hb⟩ := stripTime_exists_mul b
  obtain ⟨ke, he⟩ := stripTime_exists_mul e
  obtain ⟨kn, hn⟩ := stripTime_exists_mul t
  refine ⟨_, computeTimeline_ok_eq b e sh t h, ?_⟩
  rw [hb, he] at h
  rw [hb, he, hn]
  have hke : kb < ke := lt_of_mul_lt_mul_right h DAY_MS_pos.le
  simp only [timelineStats, totalWeeksSpan_mul, completedWeeks_mul]
  have h1 : (1 : ℤ) ≤ max 1 (ceilDiv (max 0 (ke - kb)) 7) := le_max_left _ _
  omega

theorem computeTimeline_currentIndex_eq_lived_witness :
    ∃ s, computeTimeline (utcMs 2000 1 1) (utcMs 2090 1 1) none (utcMs 2024 1 1) =
        Except.ok s ∧
      s.currentIndex = s.lived ∧ 0 ≤ s.lived ∧ s.lived ≤ s.total - 1 :=
  computeTimeline_currentIndex_eq_lived (utcMs 2000 1 1) (utcMs 2090 1 1) none
    (utcMs 2024 1 1) (by decide)

/-- C3: whenever today lies within `[startDate, endDate)` (all three dates
stripped to whole days), the returned stats satisfy
`lived + 1 + remaining = total`, with `lived ∈ [0, total - 1]` and
`remaining ≥ 0`. -/
theorem computeTimeline_week_partition (b e : ℤ) (sh : Option ℚ) (t : ℤ)
    (h1 : stripTime b ≤ stripTime t) (h2 : stripTime t < stripTime e) :
    ∃ s, computeTimeline b e sh t = Except.ok s ∧
      s.lived + 1 + s.remaining = s.total ∧
      0 ≤ s.lived ∧ s.lived ≤ s.total - 1 ∧ 0 ≤ s.remaining := by
  have h : stripTime b < stripTime e := lt_of_le_of_lt h1 h2
  obtain ⟨kb, hb⟩ := stripTime_exists_mul b
  obtain ⟨ke, he⟩ := stripTime_exists_mul e
  obtain ⟨kn, hn⟩ := stripTime_exists_mul t
  refine ⟨_, computeTimeline_ok_eq b e sh t h, ?_⟩
  rw [hb, he, hn]
  simp only [timelineStats, totalWeeksSpan_mul, completedWeeks_mul]
  have hT : (1 : ℤ) ≤ max 1 (ceilDiv (max 0 (ke - kb)) 7) := le_max_left _ _
  omega

theorem computeTimeline_week_partition_witness :
    ∃ s, computeTimeline (utcMs 2000 1 1) (utcMs 2090 1 1) none (utcMs 2024 1 1) =
        Except.ok s ∧
      s.lived + 1 + s.remaining = s.total ∧
      0 ≤ s.lived ∧ s.lived ≤ s.total - 1 ∧ 0 ≤ s.remaining :=
  computeTimeline_week_partition (utcMs 2000 1 1) (utcMs 2090 1 1) none
    (utcMs 2024 1 1) (by decide) (by decide)

/-- C5: for every valid span, advancing `today` by one day never decreases
`lived` or `currentIndex`. -/
theorem computeTimeline_monotone_today (b e : ℤ) (sh : Option ℚ) (t : ℤ)
    (h : stripTime b < stripTime e) :
    ∃ s s2, computeTimeline b e sh t = Except.ok s ∧
      computeTimeline b e sh (t + DAY_MS) = Except.ok s2 ∧
      s.lived ≤ s2.lived ∧ s.currentIndex ≤ s2.currentIndex := by
  obtain ⟨kb, hb⟩ := stripTime_exists_mul b
  obtain ⟨ke, he⟩ := stripTime_exists_mul e
  obtain ⟨kn, hn⟩ := stripTime_exists_mul t
  refine ⟨_, _, computeTimeline_ok_eq b e sh t h,
    computeTimeline_ok_eq b e sh (t + DAY_MS) h, ?_⟩
  rw [stripTime_add_day, hb, he, hn,
    show kn * DAY_MS + DAY_MS = (kn + 1) * DAY_MS by ring]
  simp only [timelineStats, totalWeeksSpan_mul, completedWeeks_mul]
  constructor
  · split_ifs <;> omega
  · split_ifs <;> omega

theorem computeTimeline_monotone_today_witness :
    ∃ s s2, computeTimeline (utcMs 2000 1 1) (utcMs 2090 1 1) none (utcMs 2024 1 1) =
        Except.ok s ∧
      computeTimeline (utcMs 2000 1 1) (utcMs 2090 1 1) none (utcMs 2024 1 1 + DAY_MS) =
        Except.ok s2 ∧
      s.lived ≤ s2.lived ∧ s.currentIndex ≤ s2.currentIndex :=
  computeTimeline_monotone_today (utcMs 2000 1 1) (utcMs 2090 1 1) none
    (utcMs 2024 1 1) (by decide)

/-- C6: the sleep sub-range starts at `currentIndex + 1`, its width is
`min remaining (round (sleepDays / 7))` (hence at most `remaining`), its
end is capped at `total`, and no index in the half-open range coincides
with the current week or falls among the lived weeks. -/
theorem computeTimeline_sleep_range (b e : ℤ) (sh : Option ℚ) (t : ℤ)
    (h : stripTime b < stripTime e) :
    ∃ s, computeTimeline b e sh t = Except.ok s ∧
      s.sleepStartIndex = s.currentIndex + 1 ∧
      s.sleepWeeks = min s.remaining (jsRound ((s.sleepDays : ℚ) / 7)) ∧
      s.sleepWeeks ≤ s.remaining ∧
      s.sleepEndIndex = min s.total (s.sleepStartIndex + s.sleepWeeks) ∧
      s.sleepEndIndex ≤ s.total ∧
      ∀ i : ℤ, s.sleepStartIndex ≤ i → i < s.sleepEndIndex →
        i ≠ s.currentIndex ∧ ¬i < s.lived := by
  obtain ⟨kb, hb⟩ := stripTime_exists_mul b
  obtain ⟨ke, he⟩ := stripTime_exists_mul e
  obtain ⟨kn, hn⟩ := stripTime_exists_mul t
  refine ⟨_, computeTimeline_ok_eq b e sh t h, ?_⟩
  rw [hb, he, hn]
  simp only [timelineStats, totalWeeksSpan_mul, completedWeeks_mul]
  refine ⟨by trivial, by trivial, min_le_left _ _, by trivial, min_le_left _ _, ?_⟩
  intro i hi1 hi2
  omega

theorem computeTimeline_sleep_range_witness :
    ∃ s, computeTimeline (utcMs 2000 1 1) (utcMs 2090 1 1) (some 8) (utcMs 2024 1 1) =
        Except.ok s ∧
      s.sleepStartIndex = s.currentIndex + 1 ∧
      s.sleepWeeks = min s.remaining (jsRound ((s.sleepDays : ℚ) / 7)) ∧
      s.sleepWeeks ≤ s.remaining ∧
      s.sleepEndIndex = min s.total (s.sleepStartIndex + s.sleepWeeks) ∧
      s.sleepEndIndex ≤ s.total ∧
      ∀ i : ℤ, s.sleepStartIndex ≤ i → i < s.sleepEndIndex →
        i ≠ s.currentIndex ∧ ¬i < s.lived :=
  computeTimeline_sleep_range (utcMs 2000 1 1) (utcMs 2090 1 1) (some 8)
    (utcMs 2024 1 1) (by decide)

/-- C8: a bad sleep-hours value never makes `computeTimeline` fail (success
depends only on the dates); an absent or non-finite value falls back to the
default of 8 hours, a finite value is clamped to `[0, 24]`, and the
returned `sleepHours` always lies in `[0, 24]`. -/
theorem computeTimeline_sleepHours_safe (b e t : ℤ) :
    (∀ sh sh2 : Option ℚ,
      (∃ s, computeTimeline b e sh t = Except.ok s) ↔
        (∃ s, computeTimeline b e sh2 t = Except.ok s)) ∧
    (stripTime b < stripTime e →
      (∃ s, computeTimeline b e none t = Except.ok s ∧
        s.sleepHours = DEFAULT_SLEEP_HOURS ∧
        0 ≤ s.sleepHours ∧ s.sleepHours ≤ 24) ∧
      ∀ q : ℚ, ∃ s, computeTimeline b e (some q) t = Except.ok s ∧
        s.sleepHours = clamp q 0 HOURS_PER_DAY ∧
        0 ≤ s.sleepHours ∧ s.sleepHours ≤ 24) := by
  constructor
  · intro sh sh2
    by_cases hc : stripTime e ≤ stripTime b
    · rw [computeTimeline_error_eq b e sh t hc, computeTimeline_error_eq b e sh2 t hc]
    · push_neg at hc
      rw [computeTimeline_ok_eq b e sh t hc, computeTimeline_ok_eq b e sh2 t hc]
      exact ⟨fun _ => ⟨_, rfl⟩, fun _ => ⟨_, rfl⟩⟩
  · intro h
    constructor
    · refine ⟨_, computeTimeline_ok_eq b e none t h, ?_, ?_, ?_⟩ <;>
        simp only [timelineStats] <;> norm_num [DEFAULT_SLEEP_HOURS]
    · intro q
      refine ⟨_, computeTimeline_ok_eq b e (some q) t h, rfl, ?_, ?_⟩
      · simp only [timelineStats, clamp, HOURS_PER_DAY]
        exact le_min (by norm_num) (le_max_left 0 q)
      · simp only [timelineStats, clamp, HOURS_PER_DAY]
        exact min_le_left _ _

theorem computeTimeline_sleepHours_safe_witness :
    ∃ s, computeTimeline (utcMs 2000 1 1) (utcMs 2090 1 1) none (utcMs 2024 1 1) =
        Except.ok s ∧
      s.sleepHours = DEFAULT_SLEEP_HOURS ∧ 0 ≤ s.sleepHours ∧ s.sleepHours ≤ 24 :=
  ((computeTimeline_sleepHours_safe (utcMs 2000 1 1) (utcMs 2090 1 1)
    (utcMs 2024 1 1)).2 (by decide)).1

/-- C4: `chooseGrid` always returns at least one column and one row, enough
cells for every week (`cols * rows ≥ totalWeeks`), and a cell size within
`[MIN_CELL_SIZE, MAX_CELL_SIZE]`; degenerate input `totalWeeks ≤ 0` never
fails and yields the 1×1 layout at maximum cell size. -/
theorem chooseGrid_invariants (total : ℤ) (w g : ℚ) :
    1 ≤ (chooseGrid total w g).cols ∧
    1 ≤ (chooseGrid total w g).rows ∧
    total ≤ (chooseGrid total w g).cols * (chooseGrid total w g).rows ∧
    MIN_CELL_SIZE ≤ (chooseGrid total w g).cellSize ∧
    (chooseGrid total w g).cellSize ≤ MAX_CELL_SIZE ∧
    (total ≤ 0 →
      chooseGrid total w g = { cols := 1, rows := 1, cellSize := MAX_CELL_SIZE }) := by
  by_cases h : total ≤ 0
  · simp only [chooseGrid, if_pos h]
    exact ⟨le_refl _, le_refl _, by omega, by decide, by decide, fun _ => by trivial⟩
  · have h1 : (1 : ℤ) ≤ total := by omega
    simp only [chooseGrid, if_neg h]
    refine ⟨le_max_left _ _, ?_, ?_, ?_, ?_, fun h2 => absurd h2 h⟩
    · exact one_le_ceilDiv h1 (lt_of_lt_of_le one_pos (le_max_left _ _))
    · exact le_mul_ceilDiv total (lt_of_lt_of_le one_pos (le_max_left _ _))
    · split_ifs
      · exact le_max_left _ _
      · decide
    · split_ifs
      · exact max_le (by decide) (min_le_left _ _)
      · exact le_refl _

theorem chooseGrid_invariants_witness :
    chooseGrid (-3) 0 4 = { cols := 1, rows := 1, cellSize := MAX_CELL_SIZE } :=
  (chooseGrid_invariants (-3) 0 4).2.2.2.2.2 (by decide)

lemma int_sqrt_5000 : Int.sqrt 5000 = 70 := by
  have hn : Nat.sqrt 5000 = 70 := by
    symm
    rw [Nat.eq_sqrt]
    norm_num
  unfold Int.sqrt
  rw [show Int.toNat 5000 = 5000 from rfl, hn]
  norm_num

/-- The layout chosen for 5000 weeks in a 300 px container with a 4 px
gap. -/
lemma chooseGrid_concrete :
    chooseGrid 5000 300 4 = { cols := 38, rows := 132, cellSize := 4 } := by
  simp only [chooseGrid, int_sqrt_5000]
  rw [if_neg (by norm_num : ¬(5000 : ℤ) ≤ 0)]
  rw [if_pos (by norm_num : (0 : ℚ) < 300)]
  rw [show ⌊((300 : ℚ) + 4) / ((MIN_CELL_SIZE : ℚ) + 4)⌋ = (38 : ℤ) by
    norm_num [MIN_CELL_SIZE]]
  rw [show max (1 : ℤ) 70 = 70 by decide]
  rw [show max (1 : ℤ) (70 + Int.fdiv 70 6) = 81 by decide]
  rw [show max (1 : ℤ) (min 5000 (min 81 (max 1 38))) = 38 by decide]
  rw [if_pos (by norm_num : (0 : ℚ) < 300)]
  rw [show ⌊((300 : ℚ) - 4 * (((38 : ℤ) : ℚ) - 1)) / ((38 : ℤ) : ℚ)⌋ = (4 : ℤ) by
    norm_num]
  rw [show ceilDiv 5000 38 = (132 : ℤ) by decide]
  decide

/-- C7: with a known container width the column count is capped at
`max 1 ⌊(width + gap) / (minCellSize + gap)⌋`, so cells never shrink below
the minimum cell size; in particular for 5000 weeks, a 300 px container,
a 4 px gap and minimum cell size 4 the chosen layout satisfies
`columns * (cellSize + gap) - gap ≤ 300`. -/
theorem chooseGrid_max_cols_cap (total : ℤ) (w g : ℚ) :
    (0 < w →
      (chooseGrid total w g).cols ≤ max 1 ⌊(w + g) / ((MIN_CELL_SIZE : ℚ) + g)⌋) ∧
    (chooseGrid 5000 300 4).cols * ((chooseGrid 5000 300 4).cellSize + 4) - 4 ≤ 300 := by
  constructor
  · intro hw
    by_cases h : total ≤ 0
    · simp only [chooseGrid, if_pos h]
      exact le_max_left _ _
    · simp only [chooseGrid, if_neg h]
      rw [if_pos hw]
      exact max_le (le_max_left _ _)
        (le_trans (min_le_right _ _) (le_trans (min_le_right _ _) (le_refl _)))
  · rw [chooseGrid_concrete]
    norm_num

theorem chooseGrid_max_cols_cap_witness :
    (chooseGrid 5000 300 4).cols ≤
      max 1 ⌊((300 : ℚ) + 4) / ((MIN_CELL_SIZE : ℚ) + 4)⌋ :=
  (chooseGrid_max_cols_cap 5000 300 4).1 (by norm_num)

/-- C9 counterexample: the claim says date parsing fails on every malformed
input, but the malformed string `"2020-01-01-x"` — four components, the
last non-numeric — is accepted: the destructuring drops everything after
the third component and the parser returns the date 2020-01-01. -/
theorem parseDateInput_accepts_malformed :
    parseDateInput "2020-01-01-x" = some 1577836800000 := by decide

/-- C9 (amended): `parseDateInput` accepts a `YYYY-MM-DD` string, and
returns `none` for the empty string and whenever one of the *first three*
dash-separated components is missing or does not coerce to a number;
malformed inputs whose first three components are numeric (extra trailing
components, empty components coerced to 0, out-of-range month/day) are
still accepted. -/
theorem parseDateInput_none_of_bad_component :
    parseDateInput "" = none ∧
    (∀ v : String,
      (∃ i, i < 3 ∧
        ((jsSplit '-' v.data).get? i).bind (fun p => jsNumber (String.mk p)) = none) →
      parseDateInput v = none) ∧
    parseDateInput "2020-05-17" = some (utcMs 2020 5 17) := by
  refine ⟨by decide, ?_, by decide⟩
  intro v hv
  obtain ⟨i, hi, hnone⟩ := hv
  by_cases hemp : v = ""
  · simp [parseDateInput, hemp]
  · simp only [parseDateInput, if_neg hemp]
    rcases hc0 : ((jsSplit '-' v.data).get? 0).bind (fun p => jsNumber (String.mk p)) with _ | y <;>
      rcases hc1 : ((jsSplit '-' v.data).get? 1).bind (fun p => jsNumber (String.mk p)) with _ | m <;>
        rcases hc2 : ((jsSplit '-' v.data).get? 2).bind (fun p => jsNumber (String.mk p)) with _ | d <;>
          first
          | rfl
          | (exfalso; interval_cases i <;> simp_all)

theorem parseDateInput_none_of_bad_component_witness :
    parseDateInput "abc-01-01" = none :=
  parseDateInput_none_of_bad_component.2.1 "abc-01-01" ⟨0, by decide, by decide⟩

end WeeksLife
